import Mathlib

/-!
Verification development for the OpenSystemMonitor hardware telemetry and
control subsystem (src/main.py). The ATK ACPI driver interaction, mode cache
and thermal aggregation logic are shallowly embedded below; hardware and
library effects (DeviceIoControl results, LibreHardwareMonitor and NVML
sensor readings, file storage) are modelled as explicit inputs.
-/

namespace SysMon

/-! ### ModeProtocolCodec: decoding driver replies -/

/-- Little-endian unsigned 32-bit value from four reply bytes. -/
def leU32 (b0 b1 b2 b3 : Nat) : Nat :=
  b0 + 256 * b1 + 65536 * b2 + 16777216 * b3

/-- Signed little-endian 32-bit integer at offset 0 of a reply buffer,
as produced by struct.unpack with a signed-int format. -/
def leI32 (b0 b1 b2 b3 : Nat) : Int :=
  let u := leU32 b0 b1 b2 b3
  if u < 2147483648 then (u : Int) else (u : Int) - 4294967296

/-- Decode used in the fan read (src/main.py lines 145-147):
subtract the 65536 bias, and add it back if the result is negative. -/
def decodeFan (raw : Int) : Int :=
  let val := raw - 65536
  if val < 0 then val + 65536 else val

/-- Decode used in the generic device read (src/main.py line 183):
subtract the 65536 bias only, with no wrap-around correction. -/
def decodeDevice (raw : Int) : Int := raw - 65536

/-- Closed form of the fan decode: raws below 65536 come back unchanged
because the correction re-adds exactly what was subtracted. -/
theorem decodeFan_eq (raw : Int) :
    decodeFan raw = if raw < 65536 then raw else raw - 65536 := by
  simp only [decodeFan]
  split_ifs <;> omega

/-! ### DeviceChannel: one DeviceIoControl exchange

The Windows handle and transfer outcomes are modelled as explicit fields:
`openOk` is whether CreateFileW returned a valid handle, `transferOk`
whether DeviceIoControl reported success, and `replyRaw` the signed 32-bit
little-endian integer at offset 0 of the 16-byte output buffer. -/

structure AtkChannel where
  openOk : Bool
  transferOk : Bool
  replyRaw : Int

/-- ATK device identifiers (src/main.py lines 91-96). -/
def ATK_CPU_FAN_ID : Nat := 0x00110013

def ATK_GPU_FAN_ID : Nat := 0x00110014

def ATK_CPU_MODE_ID : Nat := 0x00120075

def ATK_GPU_ECO_ID : Nat := 0x00090020

def ATK_GPU_MUX_ID : Nat := 0x00090016

/-- Maximum fan speed constant for this laptop (src/main.py line 93). -/
def FAN_MAX_RPM : Int := 6600

/-- Model of a single fan read over the ATK channel (src/main.py
lines 106-152): absent when the handle cannot be opened or the transfer
fails; otherwise the decoded value is kept only when it lies in [1, 100]
and is scaled by 100 into an RPM figure. -/
def atkReadFan (ch : AtkChannel) : Option Int :=
  if ch.openOk = false then none
  else if ch.transferOk = false then none
  else
    let val := decodeFan ch.replyRaw
    if val ≤ 0 ∨ 100 < val then none
    else some (val * 100)

/-- Model of the generic device read (src/main.py lines 164-185): absent on
channel failure, otherwise the bias-subtracted raw value. -/
def atkReadDevice (ch : AtkChannel) : Option Int :=
  if ch.openOk = false then none
  else if ch.transferOk = false then none
  else some (decodeDevice ch.replyRaw)

/-- Hardware state for one request: how the channel behaves for each
device identifier. -/
abbrev AtkHw : Type := Nat → AtkChannel

/-- Both fan reads of one snapshot (src/main.py lines 154-162). -/
def atkFanSpeeds (hw : AtkHw) : Option Int × Option Int :=
  (atkReadFan (hw ATK_CPU_FAN_ID), atkReadFan (hw ATK_GPU_FAN_ID))

/-! ### Rounding

Numeric sensor values are modelled as exact rationals. The builtin round
of the host language rounds half to even; the arguments fed to it in this
program are never exact halves, so this model agrees with it there. -/

/-- Round a rational to the nearest integer, ties to even. -/
def roundHalfEven (q : ℚ) : ℤ :=
  let f := ⌊q⌋
  let frac := q - (f : ℚ)
  if frac < 1/2 then f
  else if 1/2 < frac then f + 1
  else if f % 2 = 0 then f else f + 1

/-- Rounding to one decimal place, as used for the fan percent fields. -/
def pyRound1 (q : ℚ) : ℚ := (roundHalfEven (q * 10) : ℚ) / 10

/-- Fan percent conversion applied to a present RPM value
(src/main.py lines 564-565). -/
def fanPercentOf (rpm : Int) : ℚ := pyRound1 ((rpm : ℚ) / (FAN_MAX_RPM : ℚ) * 100)

/-! ### Thermal snapshot and backends -/

/-- The ThermalStats response record (src/main.py lines 351-360). -/
structure ThermalStats where
  cpu_package_temp_celsius : Option ℚ
  cpu_core_avg_celsius : Option ℚ
  cpu_core_max_celsius : Option ℚ
  cpu_fan_rpm : Option Int
  cpu_fan_percent : Option ℚ
  gpu_core_temp_celsius : Option ℚ
  gpu_hotspot_celsius : Option ℚ
  gpu_fan_rpm : Option Int
  gpu_fan_percent : Option ℚ
deriving DecidableEq

/-- Result of one LibreHardwareMonitor CPU scan (src/main.py lines 406-459),
modelled as an input: (package temp, core average, core max, fan rpm). -/
structure LhmCpu where
  pkg : Option ℚ
  coreAvg : Option ℚ
  coreMax : Option ℚ
  fanRpm : Option ℚ

/-- Result of one LibreHardwareMonitor GPU scan (src/main.py lines 462-503),
modelled as an input: (core temp, hotspot temp, fan rpm, fan percent). -/
structure LhmGpu where
  core : Option ℚ
  hotspot : Option ℚ
  fanRpm : Option ℚ
  fanPct : Option ℚ

/-- The driver-platform branch of the thermal aggregator (src/main.py
lines 556-583). LibreHardwareMonitor and NVML results are inputs; the two
fan figures come from the ATK channel, converted to percent only when the
RPM is present; the NVML temperature supplements the GPU core temperature
only when LibreHardwareMonitor reported none. -/
def getThermalStatsNT (lc : LhmCpu) (lg : LhmGpu) (nvmlTemp : Option ℚ)
    (hw : AtkHw) : ThermalStats :=
  let fans := atkFanSpeeds hw
  let cpuFanRpm := fans.1
  let gpuFanRpm := fans.2
  let cpuFanPct := cpuFanRpm.map fanPercentOf
  let gpuFanPct := gpuFanRpm.map fanPercentOf
  let gpuCore := match lg.core with
    | some v => some v
    | none => nvmlTemp
  { cpu_package_temp_celsius := lc.pkg
    cpu_core_avg_celsius := lc.coreAvg
    cpu_core_max_celsius := lc.coreMax
    cpu_fan_rpm := cpuFanRpm
    cpu_fan_percent := cpuFanPct
    gpu_core_temp_celsius := gpuCore
    gpu_hotspot_celsius := lg.hotspot
    gpu_fan_rpm := gpuFanRpm
    gpu_fan_percent := gpuFanPct }

/-! ### ModeStateStore -/

/-- ASCII lowercasing of a single character, as the mode keys are ASCII. -/
def pyLowerChar (c : Char) : Char :=
  if 'A' ≤ c ∧ c ≤ 'Z' then Char.ofNat (c.toNat + 32) else c

/-- ASCII lowercasing of a mode name string. -/
def pyLower (s : String) : String := ⟨s.data.map pyLowerChar⟩

/-- Read map from ATK CPU-mode register values to mode names
(src/main.py line 210). -/
def CPU_MODE_MAP (v : Int) : Option String :=
  if v = 0 then some "Balanced"
  else if v = 1 then some "Turbo"
  else if v = 2 then some "Silent"
  else if v = 3 then some "Performance"
  else if v = 4 then some "Manual"
  else none

/-- Write map from lowercased CPU mode names to register values
(src/main.py line 211). -/
def CPU_MODE_WRITE_MAP (key : String) : Option Int :=
  if key = "balanced" then some 0
  else if key = "turbo" then some 1
  else if key = "silent" then some 2
  else if key = "performance" then some 3
  else none

/-- Canonical capitalization applied when caching a written CPU mode
(src/main.py lines 258-259); the fallback is the name as requested. -/
def cpuCanonical (key fallback : String) : String :=
  if key = "balanced" then "Balanced"
  else if key = "turbo" then "Turbo"
  else if key = "silent" then "Silent"
  else if key = "performance" then "Performance"
  else fallback

/-- Canonical capitalization applied when caching a written GPU mode
(src/main.py line 292). -/
def gpuCanonical (key fallback : String) : String :=
  if key = "eco" then "Eco"
  else if key = "standard" then "Standard"
  else fallback

/-- In-memory mode cache (src/main.py lines 243, 251, 283). -/
structure ModeState where
  cpuMode : Option String
  gpuMode : Option String
deriving DecidableEq

/-- Persisted cache file content: `none` models a missing or unreadable
file, otherwise the stored cpu and gpu mode entries. -/
abbrev CacheFile : Type := Option (Option String × Option String)

/-- Model of the hardware CPU-mode read at startup (src/main.py
lines 214-222): absent on channel failure or a negative decoded value,
otherwise looked up in the read map. -/
def readCpuModeFromHw (ch : AtkChannel) : Option String :=
  match atkReadDevice ch with
  | none => none
  | some v => if v < 0 then none else CPU_MODE_MAP v

/-- Loading the persisted modes (src/main.py lines 224-232): the file
record when it parses, otherwise one hardware read for the CPU mode and
an unknown GPU mode. -/
def loadModeCache (file : CacheFile) (hwCpu : Option String) :
    Option String × Option String :=
  match file with
  | some rec => rec
  | none => (hwCpu, none)

/-- Pure read of the cached CPU mode (src/main.py lines 245-247). -/
def getCpuMode (st : ModeState) : Option String := st.cpuMode

/-- Read of the GPU mode (src/main.py lines 263-279): the cached value if
known, otherwise a fresh detection from the eco and mux registers. The
detected value is returned but not stored. -/
def getGpuMode (st : ModeState) (hw : AtkHw) : Option String :=
  match st.gpuMode with
  | some m => some m
  | none =>
    let eco := atkReadDevice (hw ATK_GPU_ECO_ID)
    let mux := atkReadDevice (hw ATK_GPU_MUX_ID)
    if eco = none ∧ mux = none then none
    else if mux = some 0 then some "Ultimate"
    else if eco = some 1 then some "Eco"
    else some "Standard"

/-- The GPU-mode read as a state transformer, making explicit that the
in-memory cache is left untouched by it. -/
def getGpuModeCall (st : ModeState) (hw : AtkHw) : Option String × ModeState :=
  (getGpuMode st hw, st)

/-- Outcome of one mode-write operation: the returned success flag,
whether a DEVS device transfer was attempted, and the resulting in-memory
state and persisted file. -/
structure SetOutcome where
  ok : Bool
  attemptedWrite : Bool
  st : ModeState
  file : CacheFile
deriving DecidableEq

/-- CPU mode write (src/main.py lines 249-261). `driverOk` is the result
the DEVS transfer would report. An unrecognized lowercased name returns
failure before any transfer; on driver success the canonical name is
cached and the pair persisted, on driver failure nothing changes. File
storage is modelled as accepting every write. -/
def setCpuMode (mode : String) (driverOk : Bool) (st : ModeState)
    (file : CacheFile) : SetOutcome :=
  let key := pyLower mode
  match CPU_MODE_WRITE_MAP key with
  | none => ⟨false, false, st, file⟩
  | some _ =>
    if driverOk then
      let c := cpuCanonical key mode
      ⟨true, true, ⟨some c, st.gpuMode⟩, some (some c, st.gpuMode)⟩
    else ⟨false, true, st, file⟩

/-- GPU mode write (src/main.py lines 281-294): only eco and standard
reach the DEVS transfer; everything else (ultimate included) returns
failure with no transfer. -/
def setGpuMode (mode : String) (driverOk : Bool) (st : ModeState)
    (file : CacheFile) : SetOutcome :=
  let key := pyLower mode
  if key = "eco" ∨ key = "standard" then
    if driverOk then
      let c := gpuCanonical key mode
      ⟨true, true, ⟨st.cpuMode, some c⟩, some (st.cpuMode, some c)⟩
    else ⟨false, true, st, file⟩
  else ⟨false, false, st, file⟩

/-! ### Endpoint-level error classification

The POST modes handler (src/main.py lines 716-727) distinguishes exactly
two rejection branches per axis: an invalid-name validation failure and a
driver write failure. -/

/-- The two rejection kinds visible to a caller of the modes endpoint. -/
inductive RejectKind where
  | invalidName
  | writeFailed
deriving DecidableEq

/-- Classification of a CPU mode request by the endpoint
(src/main.py lines 717-721). -/
def cpuRejectKind (mode : String) (driverOk : Bool) : Option RejectKind :=
  if (CPU_MODE_WRITE_MAP (pyLower mode)).isSome then
    if driverOk then none else some .writeFailed
  else some .invalidName

/-- Classification of a GPU mode request by the endpoint
(src/main.py lines 723-727). -/
def gpuRejectKind (mode : String) (driverOk : Bool) : Option RejectKind :=
  if pyLower mode = "eco" ∨ pyLower mode = "standard" then
    if driverOk then none else some .writeFailed
  else some .invalidName

/-! ### Operation sequences over the mode store -/

/-- One mode-store mutation request, tagged with the driver outcome its
DEVS transfer would report. -/
inductive ModeOp where
  | setCpu (mode : String) (driverOk : Bool)
  | setGpu (mode : String) (driverOk : Bool)

/-- Applying one operation to the in-memory state and the persisted file. -/
def applyOp (sf : ModeState × CacheFile) (op : ModeOp) : ModeState × CacheFile :=
  match op with
  | .setCpu m ok => let o := setCpuMode m ok sf.1 sf.2; (o.st, o.file)
  | .setGpu m ok => let o := setGpuMode m ok sf.1 sf.2; (o.st, o.file)

/-- Applying a sequence of operations in order. -/
def applyOps (ops : List ModeOp) (sf : ModeState × CacheFile) :
    ModeState × CacheFile :=
  ops.foldl applyOp sf

/-- Whether an operation is a successful CPU mode write. -/
def cpuWriteSuccess : ModeOp → Bool
  | .setCpu m ok => ok && (CPU_MODE_WRITE_MAP (pyLower m)).isSome
  | .setGpu _ _ => false

/-- Whether an operation is a successful GPU mode write. -/
def gpuWriteSuccess : ModeOp → Bool
  | .setCpu _ _ => false
  | .setGpu m ok => ok && (decide (pyLower m = "eco") || decide (pyLower m = "standard"))

/-! ### Helper lemmas -/

/-- The little-endian signed interpretation of four bytes stays in the
signed 32-bit range. -/
theorem leI32_range (b0 b1 b2 b3 : Nat)
    (h0 : b0 < 256) (h1 : b1 < 256) (h2 : b2 < 256) (h3 : b3 < 256) :
    -2147483648 ≤ leI32 b0 b1 b2 b3 ∧ leI32 b0 b1 b2 b3 ≤ 2147483647 := by
  simp only [leI32, leU32]
  split_ifs <;> omega

/-- The half-even rounding lands on the floor or one above it. -/
theorem roundHalfEven_floor_or (q : ℚ) :
    roundHalfEven q = ⌊q⌋ ∨ roundHalfEven q = ⌊q⌋ + 1 := by
  simp only [roundHalfEven]
  split_ifs <;> simp

/-- Lower bound for the half-even rounding. -/
theorem le_roundHalfEven (q : ℚ) (n : ℤ) (h : (n : ℚ) ≤ q) :
    n ≤ roundHalfEven q := by
  have hf : n ≤ ⌊q⌋ := Int.le_floor.mpr h
  rcases roundHalfEven_floor_or q with h1 | h1 <;> omega

/-- Upper bound for the half-even rounding: a value strictly below the
half point rounds to at most the integer below it. -/
theorem roundHalfEven_le (q : ℚ) (n : ℤ) (h : q < (n : ℚ) + 1/2) :
    roundHalfEven q ≤ n := by
  have hfle : ⌊q⌋ ≤ n := by
    have : (⌊q⌋ : ℚ) ≤ q := Int.floor_le q
    have h2 : (⌊q⌋ : ℚ) < (n : ℚ) + 1/2 := lt_of_le_of_lt this h
    have h3 : (⌊q⌋ : ℚ) < (n : ℚ) + 1 := by linarith
    exact_mod_cast Int.lt_add_one_iff.mp (by exact_mod_cast h3)
  rcases lt_or_eq_of_le hfle with hlt | heq
  · rcases roundHalfEven_floor_or q with h1 | h1 <;> omega
  · have hfrac : q - (⌊q⌋ : ℚ) < 1/2 := by
      rw [heq]; linarith
    simp only [roundHalfEven]
    rw [if_pos hfrac]
    omega

/-- A fan read that returns a value returns a decoded register value in
[1, 100] scaled by 100. -/
theorem atkReadFan_some (ch : AtkChannel) (r : Int)
    (h : atkReadFan ch = some r) :
    ∃ v, 1 ≤ v ∧ v ≤ 100 ∧ r = v * 100 ∧ v = decodeFan ch.replyRaw := by
  by_cases hopen : ch.openOk = false
  · simp [atkReadFan, hopen] at h
  by_cases htr : ch.transferOk = false
  · simp [atkReadFan, hopen, htr] at h
  by_cases hval : decodeFan ch.replyRaw ≤ 0 ∨ 100 < decodeFan ch.replyRaw
  · simp [atkReadFan, hopen, htr, hval] at h
  · simp only [atkReadFan, if_neg hopen, if_neg htr, if_neg hval] at h
    exact ⟨decodeFan ch.replyRaw, by omega, by omega, (Option.some.inj h).symm, rfl⟩

/-- Bounds for the fan percent of an RPM value in the range the ATK read
can produce. -/
theorem fanPercentOf_bounds (r : Int) (hlo : 100 ≤ r) (hhi : r ≤ 10000) :
    0 < fanPercentOf r ∧ fanPercentOf r ≤ 303/2 := by
  have hq : (r : ℚ) / (FAN_MAX_RPM : ℚ) * 100 * 10 = (r : ℚ) * 1000 / 6600 := by
    simp only [FAN_MAX_RPM]
    push_cast
    ring
  have hrlo : (100 : ℚ) ≤ (r : ℚ) := by exact_mod_cast hlo
  have hrhi : (r : ℚ) ≤ 10000 := by exact_mod_cast hhi
  have hlow : (15 : ℚ) ≤ (r : ℚ) * 1000 / 6600 := by
    rw [le_div_iff₀ (by norm_num : (0:ℚ) < 6600)]
    linarith
  have hhigh : (r : ℚ) * 1000 / 6600 < (1515 : ℤ) + 1/2 := by
    rw [div_lt_iff₀ (by norm_num : (0:ℚ) < 6600)]
    push_cast
    linarith
  have h1 : (15 : ℤ) ≤ roundHalfEven ((r : ℚ) / (FAN_MAX_RPM : ℚ) * 100 * 10) := by
    apply le_roundHalfEven
    rw [hq]
    exact_mod_cast hlow
  have h2 : roundHalfEven ((r : ℚ) / (FAN_MAX_RPM : ℚ) * 100 * 10) ≤ 1515 := by
    apply roundHalfEven_le
    rw [hq]
    exact hhigh
  constructor
  · unfold fanPercentOf pyRound1
    have : (15 : ℚ) ≤ (roundHalfEven ((r : ℚ) / (FAN_MAX_RPM : ℚ) * 100 * 10) : ℚ) := by
      exact_mod_cast h1
    linarith
  · unfold fanPercentOf pyRound1
    have : (roundHalfEven ((r : ℚ) / (FAN_MAX_RPM : ℚ) * 100 * 10) : ℚ) ≤ 1515 := by
      exact_mod_cast h2
    rw [div_le_iff₀ (by norm_num : (0:ℚ) < 10)]
    linarith

/-! ### Claim theorems -/

/-- Claim C1, amended. Decoding the signed little-endian 32-bit integer of
a driver reply is total and equals the raw value when it is below 65536,
and the raw value minus 65536 otherwise (the wrap-around correction re-adds
exactly the subtracted bias). Hence over all byte replies the result lies
in [-2^31, 2^31 - 1 - 65536] (not in [-65536, 65535]); decoding is
idempotent for raws below 131072 (not everywhere); and the vectors are:
raw 65536 + 3 decodes to 3, raw 0 decodes to 0, and raw 65536 - 3 decodes
to 65533, not to -3. -/
theorem C1_decode_total (b0 b1 b2 b3 : Nat)
    (h0 : b0 < 256) (h1 : b1 < 256) (h2 : b2 < 256) (h3 : b3 < 256) :
    (-2147483648 ≤ leI32 b0 b1 b2 b3 ∧ leI32 b0 b1 b2 b3 ≤ 2147483647)
    ∧ decodeFan (leI32 b0 b1 b2 b3) =
        (if leI32 b0 b1 b2 b3 < 65536 then leI32 b0 b1 b2 b3
         else leI32 b0 b1 b2 b3 - 65536)
    ∧ (-2147483648 ≤ decodeFan (leI32 b0 b1 b2 b3)
        ∧ decodeFan (leI32 b0 b1 b2 b3) ≤ 2147483647 - 65536)
    ∧ (leI32 b0 b1 b2 b3 < 131072 →
        decodeFan (decodeFan (leI32 b0 b1 b2 b3)) = decodeFan (leI32 b0 b1 b2 b3))
    ∧ decodeFan (65536 + 3) = 3
    ∧ decodeFan 0 = 0
    ∧ decodeFan (65536 - 3) = 65533 := by
  obtain ⟨hl, hh⟩ := leI32_range b0 b1 b2 b3 h0 h1 h2 h3
  refine ⟨⟨hl, hh⟩, decodeFan_eq _, ?_, ?_, by decide, by decide, by decide⟩
  · rw [decodeFan_eq]
    split_ifs <;> omega
  · intro hsmall
    simp only [decodeFan_eq]
    split_ifs <;> omega

/-- Witness for C1 at the reply bytes (3, 0, 1, 0), whose little-endian
signed value is 65539. -/
theorem C1_decode_total_witness :
    ((3:Nat) < 256 ∧ (0:Nat) < 256 ∧ (1:Nat) < 256)
    ∧ decodeFan (leI32 3 0 1 0) =
        (if leI32 3 0 1 0 < 65536 then leI32 3 0 1 0 else leI32 3 0 1 0 - 65536) :=
  ⟨by decide,
   (C1_decode_total 3 0 1 0 (by decide) (by decide) (by decide) (by decide)).2.1⟩

/-- Counterexample for C1 as stated: raw 65536 - 3 = 65533 decodes to
65533, not -3; raw 131072 decodes to 65536, outside [-65536, 65535]; and
decoding that already-decoded value changes it, refuting idempotence. -/
theorem C1_counterexample :
    decodeFan (65536 - 3) = 65533 ∧ decodeFan (65536 - 3) ≠ -3
    ∧ decodeFan 131072 = 65536 ∧ ¬(decodeFan 131072 ≤ 65535)
    ∧ decodeFan (decodeFan 131072) ≠ decodeFan 131072 := by decide

/-- Claim C3, amended. The decode used for the CPU-mode, GPU-eco and
GPU-mux register reads subtracts the 65536 bias without the wrap-around
re-add of the fan decode; the two decodes are not extensionally equal and
agree exactly on raw values at least 65536. -/
theorem C3_decode_agreement (raw : Int) :
    (decodeDevice raw = decodeFan raw ↔ 65536 ≤ raw)
    ∧ decodeDevice raw = raw - 65536 := by
  refine ⟨?_, rfl⟩
  rw [decodeFan_eq]
  unfold decodeDevice
  split_ifs <;> omega

/-- Counterexample for C3 as stated: on raw 0 the fan decode yields 0 while
the device decode used for the mode and flag registers yields -65536. -/
theorem C3_counterexample :
    decodeDevice 0 ≠ decodeFan 0 ∧ decodeDevice 0 = -65536 ∧ decodeFan 0 = 0 := by
  decide

/-- Claim C10. A fan read is either absent or a decoded register value in
[1, 100] times 100: every present RPM is a positive multiple of 100 in
[100, 10000] (never 0); a decoded value that is zero, negative or above
100 yields absent; and a present fan percent is strictly positive and can
exceed 100, reaching 303/2 = 151.5 at RPM 10000. -/
theorem C10_fan_read_range (ch : AtkChannel) :
    (∀ r, atkReadFan ch = some r →
      (∃ v, 1 ≤ v ∧ v ≤ 100 ∧ r = v * 100)
      ∧ 0 < r ∧ 100 ≤ r ∧ r ≤ 10000 ∧ r % 100 = 0
      ∧ 0 < fanPercentOf r ∧ fanPercentOf r ≤ 303/2)
    ∧ ((decodeFan ch.replyRaw ≤ 0 ∨ 100 < decodeFan ch.replyRaw) →
        atkReadFan ch = none)
    ∧ atkReadFan ⟨true, true, 65636⟩ = some 10000
    ∧ fanPercentOf 10000 = 303/2
    ∧ (100 : ℚ) < fanPercentOf 10000 := by
  have hmax : fanPercentOf 10000 = 303/2 := by
    norm_num [fanPercentOf, pyRound1, roundHalfEven, FAN_MAX_RPM]
  refine ⟨?_, ?_, by decide, hmax, by rw [hmax]; norm_num⟩
  · intro r h
    obtain ⟨v, hv1, hv2, hv3, _⟩ := atkReadFan_some ch r h
    have hlo : (100 : Int) ≤ r := by omega
    have hhi : r ≤ 10000 := by omega
    obtain ⟨hp1, hp2⟩ := fanPercentOf_bounds r hlo hhi
    exact ⟨⟨v, hv1, hv2, hv3⟩, by omega, hlo, hhi, by omega, hp1, hp2⟩
  · intro hbad
    by_cases hopen : ch.openOk = false
    · simp [atkReadFan, hopen]
    by_cases htr : ch.transferOk = false
    · simp [atkReadFan, hopen, htr]
    simp only [atkReadFan, if_neg hopen, if_neg htr, if_pos hbad]

/-- Witness for C10 at a concrete reply raw value 65586, which decodes to
a register value of 50 and an RPM of 5000. -/
theorem C10_fan_read_range_witness :
    atkReadFan ⟨true, true, 65586⟩ = some 5000
    ∧ ((∃ v, 1 ≤ v ∧ v ≤ 100 ∧ (5000:Int) = v * 100)
       ∧ 0 < (5000:Int) ∧ 100 ≤ (5000:Int) ∧ (5000:Int) ≤ 10000
       ∧ (5000:Int) % 100 = 0
       ∧ 0 < fanPercentOf 5000 ∧ fanPercentOf 5000 ≤ 303/2) :=
  ⟨by decide, (C10_fan_read_range ⟨true, true, 65586⟩).1 5000 (by decide)⟩

/-- Claim C4. On the driver platform the snapshot GPU core temperature is
exactly the vendor-library value whenever the vendor library reported one
(whatever the GPU-vendor backend reported), and the GPU-vendor temperature
is used precisely when the vendor library reported none; the two sources
are never combined. -/
theorem C4_gpu_temp_precedence (lc : LhmCpu) (lg : LhmGpu) (nv : Option ℚ)
    (hw : AtkHw) :
    (∀ v, lg.core = some v →
      (getThermalStatsNT lc lg nv hw).gpu_core_temp_celsius = some v)
    ∧ (lg.core = none →
      (getThermalStatsNT lc lg nv hw).gpu_core_temp_celsius = nv) := by
  constructor
  · intro v hv
    simp [getThermalStatsNT, hv]
  · intro hv
    simp [getThermalStatsNT, hv]

/-- Witness for C4: the vendor library reports 62 degrees and the
GPU-vendor backend reports 55; the snapshot carries 62. -/
theorem C4_gpu_temp_precedence_witness :
    (⟨some 62, some 70, none, none⟩ : LhmGpu).core = some 62
    ∧ (getThermalStatsNT ⟨none, none, none, none⟩ ⟨some 62, some 70, none, none⟩
        (some 55) (fun _ => ⟨false, false, 0⟩)).gpu_core_temp_celsius = some 62 :=
  ⟨rfl,
   (C4_gpu_temp_precedence ⟨none, none, none, none⟩ ⟨some 62, some 70, none, none⟩
      (some 55) (fun _ => ⟨false, false, 0⟩)).1 62 rfl⟩

/-- Claim C5. For both fans, the snapshot percent field is exactly the
RPM field mapped through the conversion round(rpm / FAN_MAX_RPM * 100, 1):
present RPM gives the converted percent, absent RPM gives absent percent;
with FAN_MAX_RPM = 6600 the conversion sends 3300 to 50.0 and 0 to 0.0. -/
theorem C5_fan_percent_conversion (lc : LhmCpu) (lg : LhmGpu) (nv : Option ℚ)
    (hw : AtkHw) :
    (getThermalStatsNT lc lg nv hw).cpu_fan_percent
      = ((getThermalStatsNT lc lg nv hw).cpu_fan_rpm).map fanPercentOf
    ∧ (getThermalStatsNT lc lg nv hw).gpu_fan_percent
      = ((getThermalStatsNT lc lg nv hw).gpu_fan_rpm).map fanPercentOf
    ∧ FAN_MAX_RPM = 6600
    ∧ fanPercentOf 3300 = 50
    ∧ fanPercentOf 0 = 0 := by
  refine ⟨rfl, rfl, rfl, ?_, ?_⟩
  · norm_num [fanPercentOf, pyRound1, roundHalfEven, FAN_MAX_RPM]
  · norm_num [fanPercentOf, pyRound1, roundHalfEven, FAN_MAX_RPM]

/-- Claim C8. When the device channel cannot be opened for any device
identifier, the snapshot is still a complete record whose driver-sourced
fields (both fan RPMs and both fan percents) are absent, while every
independently sourced field equals its own backend reading. -/
theorem C8_channel_unavailable (lc : LhmCpu) (lg : LhmGpu) (nv : Option ℚ)
    (hw : AtkHw) (hclosed : ∀ d, (hw d).openOk = false) :
    (getThermalStatsNT lc lg nv hw).cpu_fan_rpm = none
    ∧ (getThermalStatsNT lc lg nv hw).cpu_fan_percent = none
    ∧ (getThermalStatsNT lc lg nv hw).gpu_fan_rpm = none
    ∧ (getThermalStatsNT lc lg nv hw).gpu_fan_percent = none
    ∧ (getThermalStatsNT lc lg nv hw).cpu_package_temp_celsius = lc.pkg
    ∧ (getThermalStatsNT lc lg nv hw).cpu_core_avg_celsius = lc.coreAvg
    ∧ (getThermalStatsNT lc lg nv hw).cpu_core_max_celsius = lc.coreMax
    ∧ (getThermalStatsNT lc lg nv hw).gpu_hotspot_celsius = lg.hotspot
    ∧ (getThermalStatsNT lc lg nv hw).gpu_core_temp_celsius
        = (match lg.core with | some v => some v | none => nv) := by
  have h1 : atkReadFan (hw ATK_CPU_FAN_ID) = none := by
    simp [atkReadFan, hclosed (ATK_CPU_FAN_ID)]
  have h2 : atkReadFan (hw ATK_GPU_FAN_ID) = none := by
    simp [atkReadFan, hclosed (ATK_GPU_FAN_ID)]
  refine ⟨?_, ?_, ?_, ?_, rfl, rfl, rfl, rfl, rfl⟩ <;>
    simp [getThermalStatsNT, atkFanSpeeds, h1, h2]

/-- Witness for C8: with a channel that cannot open, the fan fields are
absent while the vendor-library and GPU-vendor temperatures survive. -/
theorem C8_channel_unavailable_witness :
    (∀ d : Nat, ((fun (_ : Nat) => (⟨false, true, 7⟩ : AtkChannel)) d).openOk = false)
    ∧ ((getThermalStatsNT ⟨some 45, some 44, some 47, none⟩
          ⟨none, some 70, none, none⟩ (some 61)
          (fun _ => ⟨false, true, 7⟩)).cpu_fan_rpm = none
      ∧ (getThermalStatsNT ⟨some 45, some 44, some 47, none⟩
          ⟨none, some 70, none, none⟩ (some 61)
          (fun _ => ⟨false, true, 7⟩)).cpu_fan_percent = none
      ∧ (getThermalStatsNT ⟨some 45, some 44, some 47, none⟩
          ⟨none, some 70, none, none⟩ (some 61)
          (fun _ => ⟨false, true, 7⟩)).gpu_fan_rpm = none
      ∧ (getThermalStatsNT ⟨some 45, some 44, some 47, none⟩
          ⟨none, some 70, none, none⟩ (some 61)
          (fun _ => ⟨false, true, 7⟩)).gpu_fan_percent = none
      ∧ (getThermalStatsNT ⟨some 45, some 44, some 47, none⟩
          ⟨none, some 70, none, none⟩ (some 61)
          (fun _ => ⟨false, true, 7⟩)).cpu_package_temp_celsius = some 45
      ∧ (getThermalStatsNT ⟨some 45, some 44, some 47, none⟩
          ⟨none, some 70, none, none⟩ (some 61)
          (fun _ => ⟨false, true, 7⟩)).cpu_core_avg_celsius = some 44
      ∧ (getThermalStatsNT ⟨some 45, some 44, some 47, none⟩
          ⟨none, some 70, none, none⟩ (some 61)
          (fun _ => ⟨false, true, 7⟩)).cpu_core_max_celsius = some 47
      ∧ (getThermalStatsNT ⟨some 45, some 44, some 47, none⟩
          ⟨none, some 70, none, none⟩ (some 61)
          (fun _ => ⟨false, true, 7⟩)).gpu_hotspot_celsius = some 70
      ∧ (getThermalStatsNT ⟨some 45, some 44, some 47, none⟩
          ⟨none, some 70, none, none⟩ (some 61)
          (fun _ => ⟨false, true, 7⟩)).gpu_core_temp_celsius = some 61) :=
  ⟨fun _ => rfl,
   C8_channel_unavailable ⟨some 45, some 44, some 47, none⟩
     ⟨none, some 70, none, none⟩ (some 61) (fun _ => ⟨false, true, 7⟩)
     (fun _ => rfl)⟩

/-- Claim C9, amended. While the cached GPU mode is unknown, each read of
the GPU mode derives it from the eco and mux registers with the
precedence mux reads 0 implies Ultimate, else eco reads 1 implies Eco,
else Standard when at least one register was readable, and unknown when
both registers are unreadable; the derived value is not stored in the
cache, so later reads consult the registers again rather than a saved
derivation. -/
theorem C9_gpu_mode_detection (st : ModeState) (hw : AtkHw)
    (hunknown : st.gpuMode = none) :
    (atkReadDevice (hw ATK_GPU_MUX_ID) = some 0 →
      getGpuMode st hw = some "Ultimate")
    ∧ (atkReadDevice (hw ATK_GPU_MUX_ID) ≠ some 0 →
        atkReadDevice (hw ATK_GPU_ECO_ID) = some 1 →
        getGpuMode st hw = some "Eco")
    ∧ (¬(atkReadDevice (hw ATK_GPU_ECO_ID) = none
          ∧ atkReadDevice (hw ATK_GPU_MUX_ID) = none) →
        atkReadDevice (hw ATK_GPU_MUX_ID) ≠ some 0 →
        atkReadDevice (hw ATK_GPU_ECO_ID) ≠ some 1 →
        getGpuMode st hw = some "Standard")
    ∧ (atkReadDevice (hw ATK_GPU_ECO_ID) = none →
        atkReadDevice (hw ATK_GPU_MUX_ID) = none →
        getGpuMode st hw = none)
    ∧ (getGpuModeCall st hw).2 = st
    ∧ (getGpuModeCall st hw).2.gpuMode = none := by
  refine ⟨?_, ?_, ?_, ?_, rfl, hunknown⟩
  · intro hmux
    have hne : ¬(atkReadDevice (hw ATK_GPU_ECO_ID) = none
        ∧ atkReadDevice (hw ATK_GPU_MUX_ID) = none) := by
      intro hc
      rw [hc.2] at hmux
      exact Option.noConfusion hmux
    simp [getGpuMode, hunknown, hne, hmux]
  · intro hmux heco
    have hne : ¬(atkReadDevice (hw ATK_GPU_ECO_ID) = none
        ∧ atkReadDevice (hw ATK_GPU_MUX_ID) = none) := by
      intro hc
      rw [hc.1] at heco
      exact Option.noConfusion heco
    simp [getGpuMode, hunknown, hne, hmux, heco]
  · intro hne hmux heco
    simp [getGpuMode, hunknown, hne, hmux, heco]
  · intro heco hmux
    simp [getGpuMode, hunknown, heco, hmux]

/-- Witness for C9: with an unknown cache and a mux register reading 0,
the derived GPU mode is Ultimate. -/
theorem C9_gpu_mode_detection_witness :
    atkReadDevice ((fun _ => (⟨true, true, 65536⟩ : AtkChannel)) ATK_GPU_MUX_ID)
        = some 0
    ∧ getGpuMode ⟨none, none⟩ (fun _ => ⟨true, true, 65536⟩) = some "Ultimate" :=
  ⟨by decide,
   (C9_gpu_mode_detection ⟨none, none⟩ (fun _ => ⟨true, true, 65536⟩) rfl).1
     (by decide)⟩

/-- Counterexample for C9 as stated: the derivation is not done once.
After a first read with unknown cache returned Eco, the cache is still
unknown and a second read with changed register contents returns Standard,
so the registers were read again. -/
theorem C9_counterexample :
    (getGpuModeCall ⟨none, none⟩ (fun _ => ⟨true, true, 65537⟩)).1 = some "Eco"
    ∧ (getGpuModeCall ⟨none, none⟩ (fun _ => ⟨true, true, 65537⟩)).2
        = ⟨none, none⟩
    ∧ (getGpuModeCall
          ((getGpuModeCall ⟨none, none⟩ (fun _ => ⟨true, true, 65537⟩)).2)
          (fun d => if d = ATK_GPU_ECO_ID then ⟨true, true, 65536⟩
                    else ⟨true, true, 65537⟩)).1 = some "Standard"
    ∧ (some "Standard" : Option String) ≠ some "Eco" := by decide

/-- A recognized CPU mode written with driver success caches and persists
the canonical name. -/
theorem setCpuMode_success (mode : String) (st : ModeState) (file : CacheFile)
    (hvalid : (CPU_MODE_WRITE_MAP (pyLower mode)).isSome = true) :
    setCpuMode mode true st file
      = ⟨true, true, ⟨some (cpuCanonical (pyLower mode) mode), st.gpuMode⟩,
         some (some (cpuCanonical (pyLower mode) mode), st.gpuMode)⟩ := by
  obtain ⟨v, hv⟩ := Option.isSome_iff_exists.mp hvalid
  simp [setCpuMode, hv]

/-- A recognized GPU mode written with driver success caches and persists
the canonical name. -/
theorem setGpuMode_success (mode : String) (st : ModeState) (file : CacheFile)
    (hvalid : pyLower mode = "eco" ∨ pyLower mode = "standard") :
    setGpuMode mode true st file
      = ⟨true, true, ⟨st.cpuMode, some (gpuCanonical (pyLower mode) mode)⟩,
         some (st.cpuMode, some (gpuCanonical (pyLower mode) mode))⟩ := by
  simp [setGpuMode, hvalid]

/-- Invariant: the CPU entry of both the in-memory state and the persisted
file is a given name. -/
def CpuPinned (c : String) (sf : ModeState × CacheFile) : Prop :=
  sf.1.cpuMode = some c ∧ ∃ g, sf.2 = some (some c, g)

/-- Invariant: the GPU entry of both the in-memory state and the persisted
file is a given name. -/
def GpuPinned (c : String) (sf : ModeState × CacheFile) : Prop :=
  sf.1.gpuMode = some c ∧ ∃ cp, sf.2 = some (cp, some c)

/-- Any operation other than a successful CPU write preserves the pinned
CPU mode in memory and on file. -/
theorem applyOp_cpuPinned (c : String) (sf : ModeState × CacheFile)
    (op : ModeOp) (hinv : CpuPinned c sf) (hop : cpuWriteSuccess op = false) :
    CpuPinned c (applyOp sf op) := by
  obtain ⟨hmem, g, hfile⟩ := hinv
  cases op with
  | setCpu m ok =>
    cases hmap : CPU_MODE_WRITE_MAP (pyLower m) with
    | none =>
      have heq : applyOp sf (ModeOp.setCpu m ok) = (sf.1, sf.2) := by
        simp [applyOp, setCpuMode, hmap]
      rw [heq]
      exact ⟨hmem, g, hfile⟩
    | some v =>
      have hok : ok = false := by
        simp [cpuWriteSuccess, hmap] at hop
        exact hop
      have heq : applyOp sf (ModeOp.setCpu m ok) = (sf.1, sf.2) := by
        simp [applyOp, setCpuMode, hmap, hok]
      rw [heq]
      exact ⟨hmem, g, hfile⟩
  | setGpu m ok =>
    by_cases hkey : pyLower m = "eco" ∨ pyLower m = "standard"
    · cases ok with
      | false =>
        have heq : applyOp sf (ModeOp.setGpu m false) = (sf.1, sf.2) := by
          simp [applyOp, setGpuMode, hkey]
        rw [heq]
        exact ⟨hmem, g, hfile⟩
      | true =>
        have heq : applyOp sf (ModeOp.setGpu m true)
            = (⟨sf.1.cpuMode, some (gpuCanonical (pyLower m) m)⟩,
               some (sf.1.cpuMode, some (gpuCanonical (pyLower m) m))) := by
          simp [applyOp, setGpuMode, hkey]
        rw [heq]
        exact ⟨hmem, some (gpuCanonical (pyLower m) m), by rw [hmem]⟩
    · have heq : applyOp sf (ModeOp.setGpu m ok) = (sf.1, sf.2) := by
        simp [applyOp, setGpuMode, hkey]
      rw [heq]
      exact ⟨hmem, g, hfile⟩

/-- Any operation other than a successful GPU write preserves the pinned
GPU mode in memory and on file. -/
theorem applyOp_gpuPinned (c : String) (sf : ModeState × CacheFile)
    (op : ModeOp) (hinv : GpuPinned c sf) (hop : gpuWriteSuccess op = false) :
    GpuPinned c (applyOp sf op) := by
  obtain ⟨hmem, cp, hfile⟩ := hinv
  cases op with
  | setGpu m ok =>
    by_cases hkey : pyLower m = "eco" ∨ pyLower m = "standard"
    · have hok : ok = false := by
        rcases hkey with hk | hk <;> simp [gpuWriteSuccess, hk] at hop <;> exact hop
      have heq : applyOp sf (ModeOp.setGpu m ok) = (sf.1, sf.2) := by
        simp [applyOp, setGpuMode, hkey, hok]
      rw [heq]
      exact ⟨hmem, cp, hfile⟩
    · have heq : applyOp sf (ModeOp.setGpu m ok) = (sf.1, sf.2) := by
        simp [applyOp, setGpuMode, hkey]
      rw [heq]
      exact ⟨hmem, cp, hfile⟩
  | setCpu m ok =>
    cases hmap : CPU_MODE_WRITE_MAP (pyLower m) with
    | none =>
      have heq : applyOp sf (ModeOp.setCpu m ok) = (sf.1, sf.2) := by
        simp [applyOp, setCpuMode, hmap]
      rw [heq]
      exact ⟨hmem, cp, hfile⟩
    | some v =>
      cases ok with
      | false =>
        have heq : applyOp sf (ModeOp.setCpu m false) = (sf.1, sf.2) := by
          simp [applyOp, setCpuMode, hmap]
        rw [heq]
        exact ⟨hmem, cp, hfile⟩
      | true =>
        have heq : applyOp sf (ModeOp.setCpu m true)
            = (⟨some (cpuCanonical (pyLower m) m), sf.1.gpuMode⟩,
               some (some (cpuCanonical (pyLower m) m), sf.1.gpuMode)) := by
          simp [applyOp, setCpuMode, hmap]
        rw [heq]
        exact ⟨hmem, some (cpuCanonical (pyLower m) m), by rw [hmem]⟩

/-- The pinned CPU mode survives any sequence free of successful CPU
writes. -/
theorem applyOps_cpuPinned (c : String) (ops : List ModeOp)
    (sf : ModeState × CacheFile) (hinv : CpuPinned c sf)
    (hops : ∀ op ∈ ops, cpuWriteSuccess op = false) :
    CpuPinned c (applyOps ops sf) := by
  induction ops generalizing sf with
  | nil => exact hinv
  | cons op rest ih =>
    simp only [applyOps, List.foldl_cons]
    exact ih (applyOp sf op)
      (applyOp_cpuPinned c sf op hinv (hops op (List.mem_cons_self op rest)))
      (fun o ho => hops o (List.mem_cons_of_mem op ho))

/-- The pinned GPU mode survives any sequence free of successful GPU
writes. -/
theorem applyOps_gpuPinned (c : String) (ops : List ModeOp)
    (sf : ModeState × CacheFile) (hinv : GpuPinned c sf)
    (hops : ∀ op ∈ ops, gpuWriteSuccess op = false) :
    GpuPinned c (applyOps ops sf) := by
  induction ops generalizing sf with
  | nil => exact hinv
  | cons op rest ih =>
    simp only [applyOps, List.foldl_cons]
    exact ih (applyOp sf op)
      (applyOp_gpuPinned c sf op hinv (hops op (List.mem_cons_self op rest)))
      (fun o ho => hops o (List.mem_cons_of_mem op ho))

/-- Claim C2. After a successful CPU or GPU mode write, the in-memory
value is the canonical capitalization of the requested mode, the mode
reads return it without consulting hardware, the pair is persisted, the
value survives any following operations that contain no successful write
to the same axis, and loading the persisted record after a restart
returns that mode whatever a hardware read would say. -/
theorem C2_mode_write_invariant :
    (∀ (st : ModeState) (file : CacheFile) (mode : String) (ops : List ModeOp),
      (CPU_MODE_WRITE_MAP (pyLower mode)).isSome = true →
      (∀ op ∈ ops, cpuWriteSuccess op = false) →
      (setCpuMode mode true st file).st.cpuMode
          = some (cpuCanonical (pyLower mode) mode)
      ∧ getCpuMode (setCpuMode mode true st file).st
          = some (cpuCanonical (pyLower mode) mode)
      ∧ (setCpuMode mode true st file).file
          = some (some (cpuCanonical (pyLower mode) mode), st.gpuMode)
      ∧ (applyOps ops ((setCpuMode mode true st file).st,
            (setCpuMode mode true st file).file)).1.cpuMode
          = some (cpuCanonical (pyLower mode) mode)
      ∧ ∀ hwCpu, (loadModeCache
            (applyOps ops ((setCpuMode mode true st file).st,
              (setCpuMode mode true st file).file)).2 hwCpu).1
          = some (cpuCanonical (pyLower mode) mode))
    ∧ (∀ (st : ModeState) (file : CacheFile) (mode : String) (ops : List ModeOp),
      (pyLower mode = "eco" ∨ pyLower mode = "standard") →
      (∀ op ∈ ops, gpuWriteSuccess op = false) →
      (setGpuMode mode true st file).st.gpuMode
          = some (gpuCanonical (pyLower mode) mode)
      ∧ (∀ hw : AtkHw, getGpuMode (setGpuMode mode true st file).st hw
          = some (gpuCanonical (pyLower mode) mode))
      ∧ (setGpuMode mode true st file).file
          = some (st.cpuMode, some (gpuCanonical (pyLower mode) mode))
      ∧ (applyOps ops ((setGpuMode mode true st file).st,
            (setGpuMode mode true st file).file)).1.gpuMode
          = some (gpuCanonical (pyLower mode) mode)
      ∧ ∀ hwCpu, (loadModeCache
            (applyOps ops ((setGpuMode mode true st file).st,
              (setGpuMode mode true st file).file)).2 hwCpu).2
          = some (gpuCanonical (pyLower mode) mode)) := by
  constructor
  · intro st file mode ops hvalid hops
    rw [setCpuMode_success mode st file hvalid]
    have hinv : CpuPinned (cpuCanonical (pyLower mode) mode)
        (⟨some (cpuCanonical (pyLower mode) mode), st.gpuMode⟩,
         some (some (cpuCanonical (pyLower mode) mode), st.gpuMode)) :=
      ⟨rfl, st.gpuMode, rfl⟩
    have hkept := applyOps_cpuPinned _ ops _ hinv hops
    obtain ⟨hmem, g, hfile⟩ := hkept
    refine ⟨rfl, rfl, rfl, hmem, ?_⟩
    intro hwCpu
    rw [hfile]
    rfl
  · intro st file mode ops hvalid hops
    rw [setGpuMode_success mode st file hvalid]
    have hinv : GpuPinned (gpuCanonical (pyLower mode) mode)
        (⟨st.cpuMode, some (gpuCanonical (pyLower mode) mode)⟩,
         some (st.cpuMode, some (gpuCanonical (pyLower mode) mode))) :=
      ⟨rfl, st.cpuMode, rfl⟩
    have hkept := applyOps_gpuPinned _ ops _ hinv hops
    obtain ⟨hmem, cp, hfile⟩ := hkept
    refine ⟨rfl, ?_, rfl, hmem, ?_⟩
    · intro hw
      simp [getGpuMode]
    · intro hwCpu
      rw [hfile]
      rfl

/-- Witness for C2: writing turbo succeeds, turbo is cached, read back and
persisted, survives a successful GPU write and a failed CPU write, and is
loaded back from the record after a restart whatever the boot-time
hardware read would say. -/
theorem C2_mode_write_invariant_witness :
    (CPU_MODE_WRITE_MAP (pyLower "turbo")).isSome = true
    ∧ cpuWriteSuccess (ModeOp.setGpu "eco" true) = false
    ∧ cpuWriteSuccess (ModeOp.setCpu "silent" false) = false
    ∧ (setCpuMode "turbo" true ⟨none, none⟩ none).st.cpuMode = some "Turbo"
    ∧ getCpuMode (setCpuMode "turbo" true ⟨none, none⟩ none).st = some "Turbo"
    ∧ (setCpuMode "turbo" true ⟨none, none⟩ none).file = some (some "Turbo", none)
    ∧ (applyOps [ModeOp.setGpu "eco" true, ModeOp.setCpu "silent" false]
        ((setCpuMode "turbo" true ⟨none, none⟩ none).st,
         (setCpuMode "turbo" true ⟨none, none⟩ none).file)).1.cpuMode
        = some "Turbo"
    ∧ (loadModeCache
        (applyOps [ModeOp.setGpu "eco" true, ModeOp.setCpu "silent" false]
          ((setCpuMode "turbo" true ⟨none, none⟩ none).st,
           (setCpuMode "turbo" true ⟨none, none⟩ none).file)).2
        (some "Silent")).1 = some "Turbo" := by
  have h := C2_mode_write_invariant.1 ⟨none, none⟩ none "turbo"
    [ModeOp.setGpu "eco" true, ModeOp.setCpu "silent" false]
    (by decide) (by decide)
  exact ⟨by decide, by decide, by decide, h.1, h.2.1, h.2.2.1, h.2.2.2.1,
    h.2.2.2.2 (some "Silent")⟩

/-- Claim C6. When the driver transfer fails for a recognized mode name,
the write operation reports the write failure to the caller, a transfer
was attempted, and neither the in-memory state nor the persisted file is
touched, for both the CPU and the GPU axis. -/
theorem C6_write_failure_atomic :
    (∀ (mode : String) (st : ModeState) (file : CacheFile),
      (CPU_MODE_WRITE_MAP (pyLower mode)).isSome = true →
      setCpuMode mode false st file = ⟨false, true, st, file⟩
      ∧ cpuRejectKind mode false = some RejectKind.writeFailed)
    ∧ (∀ (mode : String) (st : ModeState) (file : CacheFile),
      (pyLower mode = "eco" ∨ pyLower mode = "standard") →
      setGpuMode mode false st file = ⟨false, true, st, file⟩
      ∧ gpuRejectKind mode false = some RejectKind.writeFailed) := by
  constructor
  · intro mode st file hvalid
    obtain ⟨v, hv⟩ := Option.isSome_iff_exists.mp hvalid
    constructor
    · simp [setCpuMode, hv]
    · simp [cpuRejectKind, hvalid]
  · intro mode st file hvalid
    constructor
    · simp [setGpuMode, hvalid]
    · simp [gpuRejectKind, hvalid]

/-- Witness for C6: a rejected driver transfer for turbo and for eco
leaves a concrete state and file untouched and reports the write
failure. -/
theorem C6_write_failure_atomic_witness :
    (CPU_MODE_WRITE_MAP (pyLower "turbo")).isSome = true
    ∧ (setCpuMode "turbo" false ⟨some "Silent", some "Eco"⟩
          (some (some "Silent", some "Eco"))
        = ⟨false, true, ⟨some "Silent", some "Eco"⟩,
           some (some "Silent", some "Eco")⟩
      ∧ cpuRejectKind "turbo" false = some RejectKind.writeFailed)
    ∧ (setGpuMode "eco" false ⟨some "Silent", some "Standard"⟩
          (some (some "Silent", some "Standard"))
        = ⟨false, true, ⟨some "Silent", some "Standard"⟩,
           some (some "Silent", some "Standard")⟩
      ∧ gpuRejectKind "eco" false = some RejectKind.writeFailed) :=
  ⟨by decide,
   C6_write_failure_atomic.1 "turbo" ⟨some "Silent", some "Eco"⟩
     (some (some "Silent", some "Eco")) (by decide),
   C6_write_failure_atomic.2 "eco" ⟨some "Silent", some "Standard"⟩
     (some (some "Silent", some "Standard")) (by decide)⟩

/-- Claim C7, amended. Requesting the ultimate GPU mode always fails
before any device transfer, whatever the driver would report, through the
same invalid-name rejection used for any unrecognized GPU mode name (the
endpoint message only mentions that ultimate requires a reboot; no
separate reboot-specific error kind exists in the code); an unrecognized
CPU mode name likewise fails the name validation with no transfer. -/
theorem C7_rejection_paths :
    (∀ (driverOk : Bool) (st : ModeState) (file : CacheFile),
      setGpuMode "ultimate" driverOk st file = ⟨false, false, st, file⟩
      ∧ gpuRejectKind "ultimate" driverOk = some RejectKind.invalidName)
    ∧ (∀ (mode : String) (driverOk : Bool) (st : ModeState) (file : CacheFile),
      CPU_MODE_WRITE_MAP (pyLower mode) = none →
      setCpuMode mode driverOk st file = ⟨false, false, st, file⟩
      ∧ cpuRejectKind mode driverOk = some RejectKind.invalidName) := by
  have hne : ¬(pyLower "ultimate" = "eco" ∨ pyLower "ultimate" = "standard") := by
    decide
  constructor
  · intro driverOk st file
    constructor
    · simp [setGpuMode, hne]
    · simp [gpuRejectKind, hne]
  · intro mode driverOk st file hnone
    constructor
    · simp [setCpuMode, hnone]
    · simp [cpuRejectKind, hnone]

/-- Witness for C7: the ultimate request and an unrecognized CPU name are
rejected on a concrete state with no transfer attempted. -/
theorem C7_rejection_paths_witness :
    CPU_MODE_WRITE_MAP (pyLower "overclock") = none
    ∧ (setGpuMode "ultimate" true ⟨none, none⟩ none
        = ⟨false, false, ⟨none, none⟩, none⟩
      ∧ gpuRejectKind "ultimate" true = some RejectKind.invalidName)
    ∧ (setCpuMode "overclock" true ⟨none, none⟩ none
        = ⟨false, false, ⟨none, none⟩, none⟩
      ∧ cpuRejectKind "overclock" true = some RejectKind.invalidName) :=
  ⟨by decide,
   C7_rejection_paths.1 true ⟨none, none⟩ none,
   C7_rejection_paths.2 "overclock" true ⟨none, none⟩ none (by decide)⟩

/-- Counterexample for C7 as stated: the rejection of the ultimate GPU
mode is not a distinct reboot error; it is the same invalid-name rejection
kind and the same write outcome as an arbitrary unrecognized name, on
either driver outcome. -/
theorem C7_counterexample :
    gpuRejectKind "ultimate" true = some RejectKind.invalidName
    ∧ gpuRejectKind "ultimate" false = some RejectKind.invalidName
    ∧ gpuRejectKind "ultimate" true = gpuRejectKind "notamode" true
    ∧ setGpuMode "ultimate" true ⟨none, none⟩ none
        = setGpuMode "notamode" true ⟨none, none⟩ none := by decide

end SysMon
